import Mathlib

/-!
Verification of the Blender adaptor supervision code.

The repository carries two parallel adaptor implementations:

* `src/deadline/blender_adaptor/BlenderAdaptor/adaptor.py`, whose IPC server
  publishes a server path — embedded below in namespace `FilePathAdaptor`;
* `src/deadline_adaptor_for_blender/BlenderAdaptor/adaptor.py`, whose IPC
  server publishes a socket path and which tracks multi-output progress —
  embedded below in namespace `SocketAdaptor`.

The Cycles render handler of the socket client
(`src/deadline_adaptor_for_blender/BlenderClient/render_handlers/cycles_handler.py`)
is embedded in namespace `CyclesHandler`.

The embedding is shallow: each Python method that a claim depends on becomes a
Lean function over an explicit state record; Python exceptions become the
`Except` monad with the `PyErr` error type; numeric values are rationals and
integers with Python's truncating `int()` modelled explicitly.
-/

/-- Python exception values that the embedded adaptor code can raise. -/
inductive PyErr where
  | runtimeError (msg : String)
  | timeoutError (msg : String)
  | blenderNotRunningError (msg : String)
  | validationError
  | keyError (key : String)
  | zeroDivisionError
  | assertionError
  deriving Repr, DecidableEq

/-- Division as Python performs it on numbers: raises `ZeroDivisionError` on a
zero divisor, otherwise yields the exact quotient (modelled as a rational). -/
def pydiv (a b : ℚ) : Except PyErr ℚ :=
  if b = 0 then .error .zeroDivisionError else .ok (a / b)

/-- Truncation toward zero: the behaviour of Python's `int()` applied to a
numeric value. -/
def pyint (q : ℚ) : ℤ :=
  if 0 ≤ q then ⌊q⌋ else ⌈q⌉

/-- Side effects the adaptor performs on its collaborators (queue, subprocess,
IPC server, logger).  Shared by the cleanup and cancel entry points so that
"never enqueues" and "never terminates" are meaningful statements. -/
inductive Effect where
  | set_cleanup_flag
  | clear_cleanup_flag
  | enqueue_action (name : String) (front : Bool)
  | busy_wait_for_exit
  | terminate_client (grace_time_s : Option ℕ)
  | server_shutdown
  | join_server_thread
  | log_error (msg : String)
  | log_info (msg : String)
  deriving Repr, DecidableEq

namespace FilePathAdaptor

/-- Mutable supervisor state of the file-path adaptor
(`deadline/blender_adaptor/BlenderAdaptor/adaptor.py`): the deferred exception
slot `_exc_info` (stored as the message of the `RuntimeError`), the
`_performing_cleanup` flag, the `_is_rendering` flag, and the
`_blender_is_running` property (the client subprocess exists and is alive). -/
structure AdaptorState where
  exc_info : Option String
  performing_cleanup : Bool
  is_rendering : Bool
  blender_running : Bool
  deriving Repr, DecidableEq

/-- The `_has_exception` property: raises the stored exception when `_exc_info`
is set and cleanup is not in progress, otherwise returns `False`. -/
def has_exception (s : AdaptorState) : Except PyErr Bool :=
  match s.exc_info with
  | some e => if s.performing_cleanup then .ok false else .error (.runtimeError e)
  | none => .ok false

/-- Result of one handler invocation: the updated state plus an optionally
reported progress value (the argument passed to `update_status`). -/
abbrev HandlerResult := AdaptorState × Option ℤ

/-- The `_check_for_exception` decorator: evaluates `_has_exception` (which
raises if an exception is pending outside cleanup) and only calls the wrapped
handler body when it returned `False`. -/
def check_for_exception (func : AdaptorState → Except PyErr HandlerResult)
    (s : AdaptorState) : Except PyErr HandlerResult :=
  match has_exception s with
  | .error e => .error e
  | .ok true => .ok (s, none)
  | .ok false => func s

/-- The `_handle_complete` callback: clears `_is_rendering` and reports 100%
progress; wrapped in `_check_for_exception`. -/
def handle_complete (s : AdaptorState) : Except PyErr HandlerResult :=
  check_for_exception (fun s => .ok ({ s with is_rendering := false }, some 100)) s

/-- The `_handle_progress` callback: parses the two capture groups, computes
`int(g1) / int(g2) * 100` and truncates with `int()`; wrapped in
`_check_for_exception`. -/
def handle_progress (g1 g2 : ℕ) (s : AdaptorState) : Except PyErr HandlerResult :=
  check_for_exception (fun s => do
    let q ← pydiv (g1 : ℚ) (g2 : ℚ)
    .ok (s, some (pyint (q * 100)))) s

/-- The `_handle_error` callback: stores a `RuntimeError` built from the
matched line into `_exc_info`.  It is not wrapped in `_check_for_exception`
and assigns the slot unconditionally. -/
def handle_error (line : String) (s : AdaptorState) : AdaptorState :=
  { s with exc_info := some ("Blender Encountered an Error: " ++ line) }

/-- The `_FIRST_BLENDER_ACTIONS` list: actions which must be queued before any
others. -/
def FIRST_BLENDER_ACTIONS : List String := ["scene_file"]

/-- The `_BLENDER_INIT_KEYS` list; order of execution is important. -/
def BLENDER_INIT_KEYS : List String :=
  ["render_scene", "view_layer", "camera", "output_dir", "output_file_name", "output_format"]

/-- The `_action_from_action_item` helper at the level of action names:
`Action(item_name, ...)` built from `self.init_data[item_name]`, which raises
`KeyError` when the key is absent. -/
def action_from_action_item (init_data : List (String × String)) (item_name : String) :
    Except PyErr String :=
  match init_data.lookup item_name with
  | some _ => .ok item_name
  | none => .error (.keyError item_name)

/-- One `for action_name in ...` loop of `_populate_action_queue`, building
each action with `_action_from_action_item` in order. -/
def enqueue_items (init_data : List (String × String)) :
    List String → Except PyErr (List String)
  | [] => .ok []
  | n :: rest => do
    let a ← action_from_action_item init_data n
    let as ← enqueue_items init_data rest
    return a :: as

/-- The `_populate_action_queue` method, abstracted to the sequence of action
names it enqueues: first the `render_engine` action (built from
`self.init_data["render_engine"]`), then every `_FIRST_BLENDER_ACTIONS` entry,
then each `_BLENDER_INIT_KEYS` entry that is present in `init_data` (absent
keys are skipped). -/
def populate_action_queue (init_data : List (String × String)) :
    Except PyErr (List String) := do
  let re ← action_from_action_item init_data "render_engine"
  let firsts ← enqueue_items init_data FIRST_BLENDER_ACTIONS
  let inits := BLENDER_INIT_KEYS.filter (fun k => (init_data.lookup k).isSome)
  return re :: (firsts ++ inits)

/-- Message of the `RuntimeError` raised by `on_start` when the queue did not
drain but the timer had not expired. -/
def start_error_msg : String :=
  "Blender encountered an error and was not able to complete initialization actions."

/-- Message of the `TimeoutError` raised by `on_start` when the queue did not
drain and the timer expired (`_BLENDER_START_TIMEOUT_SECONDS = 3600`). -/
def start_timeout_msg : String :=
  "Blender did not complete initialization actions in 3600 seconds and failed to start."

/-- The code after the `on_start` busy-wait: with a non-empty queue it raises
the `RuntimeError` if `is_not_timed_out()` still holds at this re-check, else
the `TimeoutError`; with a drained queue it returns normally. -/
def on_start_after_wait (queue_len : ℕ) (is_not_timed_out : Bool) : Except PyErr Unit :=
  if 0 < queue_len then
    if is_not_timed_out then .error (.runtimeError start_error_msg)
    else .error (.timeoutError start_timeout_msg)
  else .ok ()

/-- The final iteration of the `on_start` busy-wait together with the code
after it.  The loop condition is
`_blender_is_running and not _has_exception and len(queue) > 0 and
is_not_timed_out()` evaluated left to right with short-circuiting;
`_has_exception` raises a pending exception out of the loop.  `none` means the
loop keeps waiting.  `loop_not_timed_out` is the timer value read inside the
condition; `post_not_timed_out` is the value read again after the loop. -/
def on_start_outcome (s : AdaptorState) (queue_len : ℕ)
    (loop_not_timed_out post_not_timed_out : Bool) : Option (Except PyErr Unit) :=
  if s.blender_running then
    match has_exception s with
    | .error e => some (.error e)
    | .ok _ =>
      if 0 < queue_len then
        if loop_not_timed_out then none
        else some (on_start_after_wait queue_len post_not_timed_out)
      else some (on_start_after_wait queue_len post_not_timed_out)
  else some (on_start_after_wait queue_len post_not_timed_out)

/-- The beginning of `on_run` up to the start of its busy-wait, abstracted to
the names of the actions it enqueues and its outcome: it raises
`BlenderNotRunningError` if the client is not running, then enqueues the
`camera` action, then validates `run_data` (raising the validation error on
failure), then enqueues `start_render`.  `valid` is the verdict of the
delegated schema validator. -/
def on_run_enqueues (running valid : Bool) : List String × Except PyErr Unit :=
  if running = false then
    ([], .error (.blenderNotRunningError "Cannot render because Blender is not running."))
  else if valid = false then (["camera"], .error .validationError)
  else (["camera", "start_render"], .ok ())

/-- The final iteration of the `on_run` busy-wait
(`while _blender_is_rendering and not _has_exception`) together with the check
after it: a pending exception raises from the loop condition; after the loop,
a dead client raises the exited-early `RuntimeError` carrying the exit code.
`none` means the loop keeps waiting. -/
def on_run_wait_step (s : AdaptorState) (exit_code : ℤ) : Option (Except PyErr Unit) :=
  if s.blender_running && s.is_rendering then
    match has_exception s with
    | .error e => some (.error e)
    | .ok _ => none
  else
    if s.blender_running then some (.ok ())
    else
      some (.error (.runtimeError
        ("Blender exited early and did not render successfully, please check render logs. "
          ++ "Exit code " ++ toString exit_code)))

/-- The `on_cleanup` method: sets `_performing_cleanup`, enqueues the `close`
action at the front of the queue, busy-waits (bounded, without consulting
`_has_exception`) for the client to exit, terminates the client if it is still
running, shuts the server down, joins the server thread logging (not raising)
on a failed join, and clears `_performing_cleanup` last.  It returns the final
state and the ordered effect trace; it raises no exception. -/
def on_cleanup (s : AdaptorState) (still_running_after_wait : Bool)
    (server_exists thread_alive join_failed : Bool) : AdaptorState × List Effect :=
  ({ s with performing_cleanup := false },
    [Effect.set_cleanup_flag, Effect.enqueue_action "close" true, Effect.busy_wait_for_exit]
    ++ (if still_running_after_wait then
          [Effect.log_error
            ("Blender did not complete cleanup actions and failed to gracefully shutdown. "
              ++ "Terminating."),
            Effect.terminate_client none]
        else [])
    ++ (if server_exists then [Effect.server_shutdown] else [])
    ++ (if thread_alive then
          Effect.join_server_thread ::
            (if join_failed then
              [Effect.log_error "Failed to shutdown the Blender Adaptor server."]
            else [])
        else [])
    ++ [Effect.clear_cleanup_flag])

/-- The `on_cancel` method: logs, and if the client exists and is running,
terminates it with `grace_time_s=0`; otherwise returns having done nothing.
It never touches the adaptor state and never enqueues anything. -/
def on_cancel (s : AdaptorState) : AdaptorState × List Effect :=
  if s.blender_running then
    (s, [Effect.log_info "CANCEL REQUESTED", Effect.terminate_client (some 0)])
  else
    (s, [Effect.log_info "CANCEL REQUESTED",
         Effect.log_info "Nothing to cancel because Blender is not running"])

end FilePathAdaptor

namespace SocketAdaptor

/-- Mutable supervisor state of the socket adaptor
(`deadline_adaptor_for_blender/BlenderAdaptor/adaptor.py`): the fields of the
file-path adaptor plus the output-progress counters `_expected_outputs`
(class default 0) and `_produced_outputs`. -/
structure AdaptorState where
  exc_info : Option String
  performing_cleanup : Bool
  is_rendering : Bool
  blender_running : Bool
  expected_outputs : ℕ
  produced_outputs : ℕ
  deriving Repr, DecidableEq

/-- Class-attribute default of `_expected_outputs`: total number of renders to
perform, 0 until the scene announces a count or `on_run` resets it to 1. -/
def initial_expected_outputs : ℕ := 0

/-- The `_has_exception` property of the socket adaptor (same code as the
file-path adaptor's). -/
def has_exception (s : AdaptorState) : Except PyErr Bool :=
  match s.exc_info with
  | some e => if s.performing_cleanup then .ok false else .error (.runtimeError e)
  | none => .ok false

/-- Result of one socket-adaptor handler invocation: the updated state plus an
optionally reported progress value (here a float, modelled as a rational). -/
abbrev HandlerResult := AdaptorState × Option ℚ

/-- The socket adaptor's `_check_for_exception` decorator (same code as the
file-path adaptor's, modulo `functools.wraps`). -/
def check_for_exception (func : AdaptorState → Except PyErr HandlerResult)
    (s : AdaptorState) : Except PyErr HandlerResult :=
  match has_exception s with
  | .error e => .error e
  | .ok true => .ok (s, none)
  | .ok false => func s

/-- The socket adaptor's `_handle_complete` callback: increments
`_produced_outputs`, asserts it does not exceed `_expected_outputs`, and only
when the two are equal clears `_is_rendering` and reports 100; wrapped in
`_check_for_exception`. -/
def handle_complete (s : AdaptorState) : Except PyErr HandlerResult :=
  check_for_exception (fun s =>
    let s := { s with produced_outputs := s.produced_outputs + 1 }
    if s.produced_outputs ≤ s.expected_outputs then
      if s.produced_outputs = s.expected_outputs then
        .ok ({ s with is_rendering := false }, some 100)
      else .ok (s, none)
    else .error .assertionError) s

/-- The socket adaptor's `_handle_progress` callback: computes
`numerator = (g1 / g2) + _produced_outputs`, `denominator = _expected_outputs`
and reports `numerator / denominator * 100` (no flooring, no clamping);
wrapped in `_check_for_exception`.  Both divisions raise `ZeroDivisionError`
on a zero divisor. -/
def handle_progress (g1 g2 : ℕ) (s : AdaptorState) : Except PyErr HandlerResult :=
  check_for_exception (fun s => do
    let q ← pydiv (g1 : ℚ) (g2 : ℚ)
    let numerator := q + (s.produced_outputs : ℚ)
    let p ← pydiv numerator (s.expected_outputs : ℚ)
    .ok (s, some (p * 100))) s

/-- The socket adaptor's `_handle_set_expected_outputs` callback: stores the
announced render count into `_expected_outputs`; wrapped in
`_check_for_exception`. -/
def handle_set_expected_outputs (n : ℕ) (s : AdaptorState) : Except PyErr HandlerResult :=
  check_for_exception (fun s => .ok ({ s with expected_outputs := n }, none)) s

/-- The socket adaptor's `_handle_error` callback: stores a `RuntimeError`
built from the matched line into `_exc_info`, unconditionally and without the
`_check_for_exception` wrapper. -/
def handle_error (line : String) (s : AdaptorState) : AdaptorState :=
  { s with exc_info := some ("Blender Encountered an Error: " ++ line) }

/-- The `_BLENDER_RUN_KEYS` action items (`layer`, `animation`,
`output_path`), written in the source as a Python set literal; the embedding
fixes one enumeration order. -/
def BLENDER_RUN_KEYS : List String := ["layer", "animation", "output_path"]

/-- The beginning of the socket adaptor's `on_run` up to the start of its
busy-wait: raise `BlenderNotRunningError` if the client is not running;
validate `run_data` (raising the validation error on failure); reset
`_produced_outputs := 0`, `_expected_outputs := 1`, `_is_rendering := True`;
enqueue the `scene` action (`run_data["scene"]` raises `KeyError` when
absent), then each `_BLENDER_RUN_KEYS` action whose key is in `run_data`,
then `start_render` built from `run_data["frame"]`.  Returns the updated
state, the enqueued action names, and the outcome.  `valid` is the verdict of
the delegated schema validator and `run_keys` the key set of `run_data`. -/
def on_run_setup (s : AdaptorState) (valid : Bool) (run_keys : List String) :
    AdaptorState × List String × Except PyErr Unit :=
  if s.blender_running = false then
    (s, [], .error (.blenderNotRunningError "Cannot render because Blender is not running."))
  else if valid = false then (s, [], .error .validationError)
  else
    let s1 := { s with produced_outputs := 0, expected_outputs := 1, is_rendering := true }
    if run_keys.contains "scene" = false then (s1, [], .error (.keyError "scene"))
    else
      let q := "scene" :: BLENDER_RUN_KEYS.filter (fun k => run_keys.contains k)
      if run_keys.contains "frame" then (s1, q ++ ["start_render"], .ok ())
      else (s1, q, .error (.keyError "frame"))

end SocketAdaptor

namespace CyclesHandler

/-- One Blender view layer as `set_scene` inspects it: only its `use` flag
(whether the layer is marked for rendering) matters. -/
structure ViewLayer where
  use : Bool
  deriving Repr, DecidableEq

/-- The render-count announcement logic of `CyclesHandler.set_scene`: count
the view layers with `use` set into `num_outputs`; if `num_outputs > 1`,
overwrite `num_outputs` with the total number of view layers and print the
`BlenderAdaptor Configuration: Performing <n> renders.` line (returned as
`some n`); otherwise print nothing (`none`), leaving the adaptor's default
count in place. -/
def set_scene_announced (view_layers : List ViewLayer) : Option ℕ :=
  let num_outputs := (view_layers.filter (fun l => l.use)).length
  if num_outputs > 1 then some view_layers.length else none

/-- The number of view layers enabled for rendering: per the comments in
`set_scene`, the count of renders Cycles will actually perform. -/
def enabled_layer_count (view_layers : List ViewLayer) : ℕ :=
  (view_layers.filter (fun l => l.use)).length

end CyclesHandler

/-- Bind on a successful Except value reduces to the continuation. -/
theorem except_ok_bind {ε α β : Type} (a : α) (f : α → Except ε β) :
    (Except.ok a : Except ε α) >>= f = f a := rfl

/-- Bind on a failed Except value keeps the failure. -/
theorem except_error_bind {ε α β : Type} (e : ε) (f : α → Except ε β) :
    (Except.error e : Except ε α) >>= f = Except.error e := rfl

/-- Truncation toward zero agrees with the floor on non-negative values. -/
theorem pyint_eq_floor (q : ℚ) (h : 0 ≤ q) : pyint q = ⌊q⌋ := by
  unfold pyint
  rw [if_pos h]

/-- A successful run of populate_action_queue yields exactly the render_engine
and scene_file actions followed by the init keys present in the payload. -/
theorem populate_action_queue_ok (init_data : List (String × String)) (ks : List String)
    (hok : FilePathAdaptor.populate_action_queue init_data = .ok ks) :
    ks = "render_engine" :: "scene_file" ::
      FilePathAdaptor.BLENDER_INIT_KEYS.filter (fun k => (init_data.lookup k).isSome) := by
  cases hre : init_data.lookup "render_engine" with
  | none =>
    have hred : FilePathAdaptor.populate_action_queue init_data
        = .error (.keyError "render_engine") := by
      unfold FilePathAdaptor.populate_action_queue FilePathAdaptor.action_from_action_item
      rw [hre]
      rfl
    rw [hred] at hok
    exact Except.noConfusion hok
  | some vre =>
    cases hsf : init_data.lookup "scene_file" with
    | none =>
      have hred : FilePathAdaptor.populate_action_queue init_data
          = .error (.keyError "scene_file") := by
        simp only [FilePathAdaptor.populate_action_queue,
          FilePathAdaptor.FIRST_BLENDER_ACTIONS, FilePathAdaptor.enqueue_items,
          FilePathAdaptor.action_from_action_item, hre, hsf]
        rfl
      rw [hred] at hok
      exact Except.noConfusion hok
    | some vsf =>
      have hred : FilePathAdaptor.populate_action_queue init_data
          = .ok ("render_engine" :: "scene_file" ::
              FilePathAdaptor.BLENDER_INIT_KEYS.filter
                (fun k => (init_data.lookup k).isSome)) := by
        simp only [FilePathAdaptor.populate_action_queue,
          FilePathAdaptor.FIRST_BLENDER_ACTIONS, FilePathAdaptor.enqueue_items,
          FilePathAdaptor.action_from_action_item, hre, hsf]
        rfl
      rw [hred] at hok
      injection hok with h
      exact h.symm

/-- C3: for every initialization payload on which the queue-population step of
on_start succeeds (the schema-required render_engine and scene_file keys being
present), the application-open action scene_file sits at index 1 of the
enqueued sequence, every configuration action — the presence-checked
_BLENDER_INIT_KEYS actions — is enqueued strictly after it, and a
configuration action is enqueued only when its key is present in the
payload. -/
theorem claim_C3_open_before_config (init_data : List (String × String))
    (ks : List String)
    (hok : FilePathAdaptor.populate_action_queue init_data = .ok ks) :
    ks.get? 1 = some "scene_file" ∧
    (∀ k, k ∈ FilePathAdaptor.BLENDER_INIT_KEYS → ∀ i, ks.get? i = some k → 1 < i) ∧
    (∀ k, k ∈ FilePathAdaptor.BLENDER_INIT_KEYS → k ∈ ks →
      (init_data.lookup k).isSome = true) := by
  have hks := populate_action_queue_ok init_data ks hok
  subst hks
  refine ⟨rfl, ?_, ?_⟩
  · intro k hk i hi
    match i with
    | 0 =>
      rw [List.get?_cons_zero] at hi
      injection hi with hi
      rw [← hi] at hk
      simp [FilePathAdaptor.BLENDER_INIT_KEYS] at hk
    | 1 =>
      rw [List.get?_cons_succ, List.get?_cons_zero] at hi
      injection hi with hi
      rw [← hi] at hk
      simp [FilePathAdaptor.BLENDER_INIT_KEYS] at hk
    | (n + 2) => omega
  · intro k hk hmem
    rw [List.mem_cons, List.mem_cons] at hmem
    rcases hmem with rfl | rfl | hmem
    · simp [FilePathAdaptor.BLENDER_INIT_KEYS] at hk
    · simp [FilePathAdaptor.BLENDER_INIT_KEYS] at hk
    · exact (List.mem_filter.mp hmem).2

/-- C3 witness: the ordering theorem at a concrete payload containing
render_engine, scene_file and one optional configuration key. -/
theorem claim_C3_witness :
    (FilePathAdaptor.populate_action_queue
        [("render_engine", "cycles"), ("scene_file", "a.blend"), ("camera", "Cam")]
      = .ok ["render_engine", "scene_file", "camera"]) ∧
    ((["render_engine", "scene_file", "camera"] : List String).get? 1 = some "scene_file" ∧
     (∀ k, k ∈ FilePathAdaptor.BLENDER_INIT_KEYS →
        ∀ i, (["render_engine", "scene_file", "camera"] : List String).get? i = some k →
          1 < i) ∧
     (∀ k, k ∈ FilePathAdaptor.BLENDER_INIT_KEYS →
        k ∈ (["render_engine", "scene_file", "camera"] : List String) →
          ([("render_engine", "cycles"), ("scene_file", "a.blend"),
            ("camera", "Cam")].lookup k).isSome = true)) :=
  ⟨rfl, claim_C3_open_before_config _ _ rfl⟩

/-- C1 counterexample: with an exception already stored in the deferred slot, a
second fatal-pattern match changes the slot — the first stored exception is
overwritten by the second, so the handler does not set the slot exactly once. -/
theorem claim_C1_counterexample :
    (FilePathAdaptor.handle_error "Error: second failure"
        { exc_info := some "Blender Encountered an Error: Error: first failure",
          performing_cleanup := false, is_rendering := true,
          blender_running := true }).exc_info
      = some "Blender Encountered an Error: Error: second failure" ∧
    (some "Blender Encountered an Error: Error: second failure" : Option String)
      ≠ some "Blender Encountered an Error: Error: first failure" := by
  exact ⟨rfl, by decide⟩

/-- C1 (amended): a fatal-pattern match always stores a RuntimeError built from
the matched line into the deferred exception slot, unconditionally overwriting
any exception already pending — the last match wins — in both adaptors. -/
theorem claim_C1_last_match_wins (s : FilePathAdaptor.AdaptorState)
    (t : SocketAdaptor.AdaptorState) (line : String) :
    (FilePathAdaptor.handle_error line s).exc_info
        = some ("Blender Encountered an Error: " ++ line) ∧
    (SocketAdaptor.handle_error line t).exc_info
        = some ("Blender Encountered an Error: " ++ line) :=
  ⟨rfl, rfl⟩

/-- C5 counterexample: a phase-progress handler (the completion handler)
invoked while the deferred exception is set and cleanup is not in progress is
not a no-op: it raises the pending exception on the thread that invoked it,
the output-reading thread. -/
theorem claim_C5_counterexample :
    FilePathAdaptor.handle_complete
        { exc_info := some "boom", performing_cleanup := false,
          is_rendering := true, blender_running := true }
      = .error (.runtimeError "boom") := rfl

/-- C5 (amended): once the deferred exception is set, a guarded phase-progress
handler invoked outside the cleanup phase re-raises that exception on the
invoking (output-reading) thread instead of running its body, while during the
cleanup phase the guard passes and the handler body runs to completion. -/
theorem claim_C5_guard_reraises (body : FilePathAdaptor.AdaptorState →
      Except PyErr FilePathAdaptor.HandlerResult)
    (s : FilePathAdaptor.AdaptorState) (e : String) (hexc : s.exc_info = some e) :
    (s.performing_cleanup = false →
      FilePathAdaptor.check_for_exception body s = .error (.runtimeError e)) ∧
    (s.performing_cleanup = true →
      FilePathAdaptor.check_for_exception body s = body s) := by
  unfold FilePathAdaptor.check_for_exception FilePathAdaptor.has_exception
  rw [hexc]
  constructor <;> intro h <;> simp [h]

/-- C5 witness: the guard theorem applied to the completion handler body at a
concrete state with a pending exception. -/
theorem claim_C5_witness :
    (FilePathAdaptor.AdaptorState.mk (some "boom") false true true).exc_info
        = some "boom" ∧
    (((FilePathAdaptor.AdaptorState.mk (some "boom") false true true).performing_cleanup
        = false →
      FilePathAdaptor.check_for_exception
          (fun s => .ok ({ s with is_rendering := false }, some 100))
          (FilePathAdaptor.AdaptorState.mk (some "boom") false true true)
        = .error (.runtimeError "boom")) ∧
     ((FilePathAdaptor.AdaptorState.mk (some "boom") false true true).performing_cleanup
        = true →
      FilePathAdaptor.check_for_exception
          (fun s => .ok ({ s with is_rendering := false }, some 100))
          (FilePathAdaptor.AdaptorState.mk (some "boom") false true true)
        = (fun s => .ok ({ s with is_rendering := false }, some 100))
            (FilePathAdaptor.AdaptorState.mk (some "boom") false true true))) :=
  ⟨rfl, claim_C5_guard_reraises _ _ "boom" rfl⟩

/-- C8: calling on_cancel never changes the adaptor state (so repeated calls
are idempotent); when the client is not running it performs nothing but
logging and raises nothing; when the client is running it terminates the
client with a zero-second grace period; and in no case does it enqueue any
command, so it never attempts a graceful in-application shutdown. -/
theorem claim_C8_on_cancel (s : FilePathAdaptor.AdaptorState) :
    (FilePathAdaptor.on_cancel s).1 = s ∧
    FilePathAdaptor.on_cancel (FilePathAdaptor.on_cancel s).1
      = FilePathAdaptor.on_cancel s ∧
    (s.blender_running = false →
      (FilePathAdaptor.on_cancel s).2 =
        [Effect.log_info "CANCEL REQUESTED",
         Effect.log_info "Nothing to cancel because Blender is not running"]) ∧
    (s.blender_running = true →
      (FilePathAdaptor.on_cancel s).2 =
        [Effect.log_info "CANCEL REQUESTED", Effect.terminate_client (some 0)]) ∧
    (∀ name front, Effect.enqueue_action name front ∉ (FilePathAdaptor.on_cancel s).2) := by
  unfold FilePathAdaptor.on_cancel
  cases h : s.blender_running <;> simp [h]

/-- C8 witness: the on_cancel theorem at a concrete not-running state. -/
theorem claim_C8_witness :
    ((FilePathAdaptor.on_cancel (FilePathAdaptor.AdaptorState.mk none false false false)).1
        = FilePathAdaptor.AdaptorState.mk none false false false) ∧
    FilePathAdaptor.on_cancel
        (FilePathAdaptor.on_cancel
          (FilePathAdaptor.AdaptorState.mk none false false false)).1
      = FilePathAdaptor.on_cancel (FilePathAdaptor.AdaptorState.mk none false false false) ∧
    ((FilePathAdaptor.AdaptorState.mk none false false false).blender_running = false →
      (FilePathAdaptor.on_cancel (FilePathAdaptor.AdaptorState.mk none false false false)).2 =
        [Effect.log_info "CANCEL REQUESTED",
         Effect.log_info "Nothing to cancel because Blender is not running"]) ∧
    ((FilePathAdaptor.AdaptorState.mk none false false false).blender_running = true →
      (FilePathAdaptor.on_cancel (FilePathAdaptor.AdaptorState.mk none false false false)).2 =
        [Effect.log_info "CANCEL REQUESTED", Effect.terminate_client (some 0)]) ∧
    (∀ name front, Effect.enqueue_action name front ∉
      (FilePathAdaptor.on_cancel (FilePathAdaptor.AdaptorState.mk none false false false)).2) :=
  claim_C8_on_cancel (FilePathAdaptor.AdaptorState.mk none false false false)

/-- C9: evaluating set_scene at the failing scenes — with view layers
(use, use, no-use), 2 of 3 enabled, the announced count is 3, the total layer
count, not the enabled count 2; with a single enabled layer nothing is
announced, discarding the true count 1. -/
theorem claim_C9_set_scene_eval :
    CyclesHandler.set_scene_announced [⟨true⟩, ⟨true⟩, ⟨false⟩] = some 3 ∧
    CyclesHandler.enabled_layer_count [⟨true⟩, ⟨true⟩, ⟨false⟩] = 2 ∧
    (3 : ℕ) ≠ 2 ∧
    CyclesHandler.set_scene_announced [⟨true⟩] = none ∧
    CyclesHandler.enabled_layer_count [⟨true⟩] = 1 := by
  refine ⟨rfl, rfl, by decide, rfl, rfl⟩

/-- C7: when on_cleanup is entered with the deferred exception already set, it
completes without re-raising it (it is a total function into a state and
effect trace, and the pending exception is left untouched): it sets the
performing-cleanup flag as its first step, enqueues the close command at the
front of the queue as the next step, terminates the client if it was still
running after the bounded wait, shuts the IPC server down, joins the server
thread and logs — rather than raising — on a failed join, and clears the
performing-cleanup flag as its last step. -/
theorem claim_C7_cleanup_with_pending_exception (s : FilePathAdaptor.AdaptorState)
    (e : String) (hexc : s.exc_info = some e)
    (still_running server_exists thread_alive join_failed : Bool) :
    (FilePathAdaptor.on_cleanup s still_running server_exists
        thread_alive join_failed).1.exc_info = some e ∧
    (FilePathAdaptor.on_cleanup s still_running server_exists
        thread_alive join_failed).1.performing_cleanup = false ∧
    (FilePathAdaptor.on_cleanup s still_running server_exists
        thread_alive join_failed).2.head? = some Effect.set_cleanup_flag ∧
    (FilePathAdaptor.on_cleanup s still_running server_exists
        thread_alive join_failed).2.get? 1 = some (Effect.enqueue_action "close" true) ∧
    (FilePathAdaptor.on_cleanup s still_running server_exists
        thread_alive join_failed).2.getLast? = some Effect.clear_cleanup_flag ∧
    (still_running = true → Effect.terminate_client none ∈
      (FilePathAdaptor.on_cleanup s still_running server_exists
        thread_alive join_failed).2) ∧
    (server_exists = true → Effect.server_shutdown ∈
      (FilePathAdaptor.on_cleanup s still_running server_exists
        thread_alive join_failed).2) ∧
    (thread_alive = true → Effect.join_server_thread ∈
      (FilePathAdaptor.on_cleanup s still_running server_exists
        thread_alive join_failed).2) ∧
    (thread_alive = true → join_failed = true →
      Effect.log_error "Failed to shutdown the Blender Adaptor server." ∈
        (FilePathAdaptor.on_cleanup s still_running server_exists
          thread_alive join_failed).2) := by
  cases still_running <;> cases server_exists <;> cases thread_alive <;>
    cases join_failed <;> simp [FilePathAdaptor.on_cleanup, hexc]

/-- C7 witness: the cleanup theorem at a concrete state carrying a pending
exception, with the client still running and the join failing. -/
theorem claim_C7_witness :
    (FilePathAdaptor.AdaptorState.mk (some "boom") false false true).exc_info
        = some "boom" ∧
    ((FilePathAdaptor.on_cleanup
        (FilePathAdaptor.AdaptorState.mk (some "boom") false false true)
        true true true true).1.exc_info = some "boom" ∧
     (FilePathAdaptor.on_cleanup
        (FilePathAdaptor.AdaptorState.mk (some "boom") false false true)
        true true true true).1.performing_cleanup = false ∧
     (FilePathAdaptor.on_cleanup
        (FilePathAdaptor.AdaptorState.mk (some "boom") false false true)
        true true true true).2.head? = some Effect.set_cleanup_flag ∧
     (FilePathAdaptor.on_cleanup
        (FilePathAdaptor.AdaptorState.mk (some "boom") false false true)
        true true true true).2.get? 1 = some (Effect.enqueue_action "close" true) ∧
     (FilePathAdaptor.on_cleanup
        (FilePathAdaptor.AdaptorState.mk (some "boom") false false true)
        true true true true).2.getLast? = some Effect.clear_cleanup_flag ∧
     (true = true → Effect.terminate_client none ∈
       (FilePathAdaptor.on_cleanup
         (FilePathAdaptor.AdaptorState.mk (some "boom") false false true)
         true true true true).2) ∧
     (true = true → Effect.server_shutdown ∈
       (FilePathAdaptor.on_cleanup
         (FilePathAdaptor.AdaptorState.mk (some "boom") false false true)
         true true true true).2) ∧
     (true = true → Effect.join_server_thread ∈
       (FilePathAdaptor.on_cleanup
         (FilePathAdaptor.AdaptorState.mk (some "boom") false false true)
         true true true true).2) ∧
     (true = true → true = true →
       Effect.log_error "Failed to shutdown the Blender Adaptor server." ∈
         (FilePathAdaptor.on_cleanup
           (FilePathAdaptor.AdaptorState.mk (some "boom") false false true)
           true true true true).2)) :=
  ⟨rfl, claim_C7_cleanup_with_pending_exception _ "boom" rfl true true true true⟩

/-- C4 counterexample: at an on_start wait exit where the client is found not
running with one action still queued but the start timer has expired, on_start
raises the TimeoutError, not the liveness RuntimeError. -/
theorem claim_C4_counterexample :
    FilePathAdaptor.on_start_outcome
        (FilePathAdaptor.AdaptorState.mk none false false false) 1 false false
      = some (.error (.timeoutError FilePathAdaptor.start_timeout_msg)) := rfl

/-- C4 (amended): in on_start, a busy-wait that ends with a non-empty queue
raises the liveness RuntimeError exactly when the timer has not expired at the
re-check after the loop — which, absent a pending exception, only happens when
the client died — and the TimeoutError when the timer has expired, even if the
client is also found dead at that moment; a wait exit with the client alive,
no pending exception and an expired timer raises the TimeoutError.  In
on_run, the wait is unbounded: its exit raises the exited-early liveness
RuntimeError carrying the exit code exactly when the client is not running,
and on_run can raise no TimeoutError at all. -/
theorem claim_C4_liveness_vs_timeout (s : FilePathAdaptor.AdaptorState) (q : ℕ)
    (code : ℤ) (hq : 0 < q) (hexc : s.exc_info = none) :
    (∀ t_loop, s.blender_running = false →
      FilePathAdaptor.on_start_outcome s q t_loop true
        = some (.error (.runtimeError FilePathAdaptor.start_error_msg))) ∧
    (FilePathAdaptor.on_start_outcome s q false false
        = some (.error (.timeoutError FilePathAdaptor.start_timeout_msg))) ∧
    (s.blender_running = false →
      FilePathAdaptor.on_run_wait_step s code
        = some (.error (.runtimeError
            ("Blender exited early and did not render successfully, please check render logs. "
              ++ "Exit code " ++ toString code)))) ∧
    (∀ m, FilePathAdaptor.on_run_wait_step s code
        ≠ some (.error (.timeoutError m))) := by
  refine ⟨?_, ?_, ?_, ?_⟩
  · intro t_loop hrun
    simp [FilePathAdaptor.on_start_outcome, hrun, FilePathAdaptor.on_start_after_wait, hq]
  · cases hrun : s.blender_running <;>
      simp [FilePathAdaptor.on_start_outcome, FilePathAdaptor.has_exception, hexc, hrun,
        FilePathAdaptor.on_start_after_wait, hq]
  · intro hrun
    simp [FilePathAdaptor.on_run_wait_step, hrun]
  · intro m
    cases hrun : s.blender_running <;> cases hrend : s.is_rendering <;>
      simp [FilePathAdaptor.on_run_wait_step, FilePathAdaptor.has_exception, hexc, hrun, hrend]

/-- C4 witness: the liveness/timeout theorem at a concrete exception-free
state and queue length 1. -/
theorem claim_C4_witness :
    ((0 : ℕ) < 1 ∧ (FilePathAdaptor.AdaptorState.mk none false false false).exc_info = none) ∧
    ((∀ t_loop, (FilePathAdaptor.AdaptorState.mk none false false false).blender_running = false →
        FilePathAdaptor.on_start_outcome
            (FilePathAdaptor.AdaptorState.mk none false false false) 1 t_loop true
          = some (.error (.runtimeError FilePathAdaptor.start_error_msg))) ∧
     (FilePathAdaptor.on_start_outcome
          (FilePathAdaptor.AdaptorState.mk none false false false) 1 false false
        = some (.error (.timeoutError FilePathAdaptor.start_timeout_msg))) ∧
     ((FilePathAdaptor.AdaptorState.mk none false false false).blender_running = false →
        FilePathAdaptor.on_run_wait_step
            (FilePathAdaptor.AdaptorState.mk none false false false) 137
          = some (.error (.runtimeError
              ("Blender exited early and did not render successfully, please check render logs. "
                ++ "Exit code " ++ toString (137 : ℤ))))) ∧
     (∀ m, FilePathAdaptor.on_run_wait_step
            (FilePathAdaptor.AdaptorState.mk none false false false) 137
          ≠ some (.error (.timeoutError m)))) :=
  ⟨⟨Nat.one_pos, rfl⟩, claim_C4_liveness_vs_timeout _ 1 137 Nat.one_pos rfl⟩

/-- C6 counterexample: on_run of the file-path adaptor, called with the client
running on a run_data that fails schema validation, raises the validation
error but has already enqueued the camera action — the command queue is not
left unchanged. -/
theorem claim_C6_counterexample :
    FilePathAdaptor.on_run_enqueues true false = (["camera"], .error .validationError) ∧
    (["camera"] : List String) ≠ [] := ⟨rfl, by decide⟩

/-- C6 (amended): for run_data failing schema validation, on_run raises the
validation error synchronously and before enqueueing the render-trigger
command; in the socket adaptor, validation precedes every enqueue and every
state change, leaving the queue unchanged, while the file-path adaptor
enqueues exactly the camera action before validating, so that one action is
already queued when the validation error propagates; when validation passes,
start_render is enqueued only afterwards. -/
theorem claim_C6_validation_before_enqueue (t : SocketAdaptor.AdaptorState)
    (run_keys : List String) (ht : t.blender_running = true) :
    SocketAdaptor.on_run_setup t false run_keys = (t, [], .error .validationError) ∧
    FilePathAdaptor.on_run_enqueues true false = (["camera"], .error .validationError) ∧
    FilePathAdaptor.on_run_enqueues true true = (["camera", "start_render"], .ok ()) := by
  refine ⟨?_, rfl, rfl⟩
  simp [SocketAdaptor.on_run_setup, ht]

/-- C6 witness: the validation-order theorem at a concrete running socket
state. -/
theorem claim_C6_witness :
    (SocketAdaptor.AdaptorState.mk none false false true 0 0).blender_running = true ∧
    (SocketAdaptor.on_run_setup (SocketAdaptor.AdaptorState.mk none false false true 0 0)
        false ["frame"]
      = (SocketAdaptor.AdaptorState.mk none false false true 0 0, [],
          .error .validationError) ∧
     FilePathAdaptor.on_run_enqueues true false = (["camera"], .error .validationError) ∧
     FilePathAdaptor.on_run_enqueues true true = (["camera", "start_render"], .ok ())) :=
  ⟨rfl, claim_C6_validation_before_enqueue _ ["frame"] rfl⟩

/-- C2 counterexample: for unit_index 0, done 1, total 3, N 1, the socket
adaptor's progress handler reports 100/3, while the claimed formula
floor(((unit_index + done/total)/N)*100) gives 33 — the reported value is not
floored. -/
theorem claim_C2_counterexample :
    SocketAdaptor.handle_progress 1 3
        (SocketAdaptor.AdaptorState.mk none false true true 1 0)
      = .ok (SocketAdaptor.AdaptorState.mk none false true true 1 0, some (100 / 3)) ∧
    ⌊(((0 : ℚ) + 1 / 3) / 1) * 100⌋ = 33 ∧
    (100 / 3 : ℚ) ≠ ((33 : ℤ) : ℚ) := by
  refine ⟨?_, ?_, by norm_num⟩
  · simp only [SocketAdaptor.handle_progress, SocketAdaptor.check_for_exception,
      SocketAdaptor.has_exception, pydiv]
    norm_num [except_ok_bind]
  have h : (((0 : ℚ) + 1 / 3) / 1) * 100 = 100 / 3 := by norm_num
  rw [h, Int.floor_eq_iff]
  norm_num

/-- C2 (amended): with 0 ≤ done ≤ total, total > 0, unit_index < N and no
pending exception, the socket adaptor's progress handler reports exactly the
unfloored value ((done/total + unit_index)/N)*100 — no flooring and no
explicit clamping are applied — and that value lies in [0, 100]; the
file-path adaptor's single-unit handler reports int((done/total)*100), which
equals floor((done/total)*100) and lies in [0, 100]. -/
theorem claim_C2_progress_values (done total : ℕ)
    (s : FilePathAdaptor.AdaptorState) (t : SocketAdaptor.AdaptorState)
    (hs : s.exc_info = none) (ht : t.exc_info = none)
    (htot : 0 < total) (hdone : done ≤ total)
    (hidx : t.produced_outputs < t.expected_outputs) :
    (SocketAdaptor.handle_progress done total t
        = .ok (t, some ((((done : ℚ) / (total : ℚ) + (t.produced_outputs : ℚ))
            / (t.expected_outputs : ℚ)) * 100)) ∧
      0 ≤ (((done : ℚ) / (total : ℚ) + (t.produced_outputs : ℚ))
            / (t.expected_outputs : ℚ)) * 100 ∧
      (((done : ℚ) / (total : ℚ) + (t.produced_outputs : ℚ))
            / (t.expected_outputs : ℚ)) * 100 ≤ 100) ∧
    (FilePathAdaptor.handle_progress done total s
        = .ok (s, some ⌊(done : ℚ) / (total : ℚ) * 100⌋) ∧
      0 ≤ ⌊(done : ℚ) / (total : ℚ) * 100⌋ ∧
      ⌊(done : ℚ) / (total : ℚ) * 100⌋ ≤ 100) := by
  have htotQ : (0 : ℚ) < (total : ℚ) := by exact_mod_cast htot
  have hexpQ : (0 : ℚ) < (t.expected_outputs : ℚ) := by
    exact_mod_cast Nat.pos_of_ne_zero (by omega)
  have hfrac0 : (0 : ℚ) ≤ (done : ℚ) / (total : ℚ) := by positivity
  have hfrac1 : (done : ℚ) / (total : ℚ) ≤ 1 := by
    rw [div_le_one htotQ]
    exact_mod_cast hdone
  have hsum : (done : ℚ) / (total : ℚ) + (t.produced_outputs : ℚ)
      ≤ (t.expected_outputs : ℚ) := by
    have hplus1 : (t.produced_outputs : ℚ) + 1 ≤ (t.expected_outputs : ℚ) := by
      exact_mod_cast hidx
    linarith
  refine ⟨⟨?_, ?_, ?_⟩, ?_, ?_, ?_⟩
  · simp only [SocketAdaptor.handle_progress, SocketAdaptor.check_for_exception,
      SocketAdaptor.has_exception, ht, pydiv, if_neg htotQ.ne', if_neg hexpQ.ne']
    rfl
  · positivity
  · have hdivle : ((done : ℚ) / (total : ℚ) + (t.produced_outputs : ℚ))
        / (t.expected_outputs : ℚ) ≤ 1 := by
      rw [div_le_one hexpQ]
      exact hsum
    linarith
  · simp only [FilePathAdaptor.handle_progress, FilePathAdaptor.check_for_exception,
      FilePathAdaptor.has_exception, hs, pydiv, if_neg htotQ.ne']
    rw [show (Except.ok ((done : ℚ) / (total : ℚ)) : Except PyErr ℚ)
        >>= (fun q => Except.ok (s, some (pyint (q * 100))))
      = Except.ok (s, some (pyint ((done : ℚ) / (total : ℚ) * 100))) from rfl]
    rw [pyint_eq_floor _ (by positivity)]
  · exact Int.floor_nonneg.mpr (by positivity)
  · have hle : (done : ℚ) / (total : ℚ) * 100 ≤ 100 := by nlinarith
    calc ⌊(done : ℚ) / (total : ℚ) * 100⌋ ≤ ⌊(100 : ℚ)⌋ := Int.floor_le_floor hle
    _ = 100 := by norm_num

/-- C2 witness: the progress theorem at done 1, total 2 with unit_index 0 of
N 1 on concrete exception-free states. -/
theorem claim_C2_witness :
    ((FilePathAdaptor.AdaptorState.mk none false true true).exc_info = none ∧
     (SocketAdaptor.AdaptorState.mk none false true true 1 0).exc_info = none ∧
     (0 : ℕ) < 2 ∧ (1 : ℕ) ≤ 2 ∧
     (SocketAdaptor.AdaptorState.mk none false true true 1 0).produced_outputs
       < (SocketAdaptor.AdaptorState.mk none false true true 1 0).expected_outputs) ∧
    ((SocketAdaptor.handle_progress 1 2
          (SocketAdaptor.AdaptorState.mk none false true true 1 0)
        = .ok (SocketAdaptor.AdaptorState.mk none false true true 1 0,
            some ((((1 : ℚ) / (2 : ℚ)
              + ((SocketAdaptor.AdaptorState.mk none false true true 1 0).produced_outputs : ℚ))
              / ((SocketAdaptor.AdaptorState.mk none false true true 1 0).expected_outputs : ℚ))
              * 100)) ∧
      0 ≤ (((1 : ℚ) / (2 : ℚ)
          + ((SocketAdaptor.AdaptorState.mk none false true true 1 0).produced_outputs : ℚ))
          / ((SocketAdaptor.AdaptorState.mk none false true true 1 0).expected_outputs : ℚ))
          * 100 ∧
      (((1 : ℚ) / (2 : ℚ)
          + ((SocketAdaptor.AdaptorState.mk none false true true 1 0).produced_outputs : ℚ))
          / ((SocketAdaptor.AdaptorState.mk none false true true 1 0).expected_outputs : ℚ))
          * 100 ≤ 100) ∧
     (FilePathAdaptor.handle_progress 1 2 (FilePathAdaptor.AdaptorState.mk none false true true)
        = .ok (FilePathAdaptor.AdaptorState.mk none false true true,
            some ⌊(1 : ℚ) / (2 : ℚ) * 100⌋) ∧
      0 ≤ ⌊(1 : ℚ) / (2 : ℚ) * 100⌋ ∧
      ⌊(1 : ℚ) / (2 : ℚ) * 100⌋ ≤ 100)) :=
  ⟨⟨rfl, rfl, by decide, by decide, by decide⟩,
    claim_C2_progress_values 1 2 _ _ rfl rfl (by decide) (by decide) (by decide)⟩

/-- C10: a progress-pattern line handled while _expected_outputs still holds
its initial value 0, with no exception pending (so the guard passes), makes
the socket adaptor's progress handler divide by zero: it raises
ZeroDivisionError on the invoking stream-reading thread and reports no
progress value. -/
theorem claim_C10_progress_div_zero (g1 g2 : ℕ) (s : SocketAdaptor.AdaptorState)
    (hexc : s.exc_info = none)
    (hexp : s.expected_outputs = SocketAdaptor.initial_expected_outputs) :
    SocketAdaptor.handle_progress g1 g2 s = .error .zeroDivisionError := by
  simp only [SocketAdaptor.handle_progress, SocketAdaptor.check_for_exception,
    SocketAdaptor.has_exception, hexc, pydiv]
  by_cases h : (g2 : ℚ) = 0 <;>
    simp only [h, hexp, SocketAdaptor.initial_expected_outputs, Nat.cast_zero,
      if_pos rfl, if_true, reduceIte] <;> rfl

/-- C10 witness: the zero-division theorem at the initial adaptor state and a
concrete matched progress line 50/100. -/
theorem claim_C10_witness :
    ((SocketAdaptor.AdaptorState.mk none false false false 0 0).exc_info = none ∧
     (SocketAdaptor.AdaptorState.mk none false false false 0 0).expected_outputs
        = SocketAdaptor.initial_expected_outputs) ∧
    SocketAdaptor.handle_progress 50 100
        (SocketAdaptor.AdaptorState.mk none false false false 0 0)
      = .error .zeroDivisionError :=
  ⟨⟨rfl, rfl⟩, claim_C10_progress_div_zero 50 100 _ rfl rfl⟩
